import Mathlib

/-!
Verification of the recording-session orchestration and transcription
pipeline of `record_and_send.py` (OBS record-and-send client).

The Python source is shallowly embedded: the controller's mutable fields
become an explicit state record, the concurrent wait loop becomes a fold
over an interleaving of wait-time actions (remote `RecordStateChanged`
events and the manual Enter signal), and remote/HTTP/filesystem
collaborators become explicit function parameters.  Observable effects
(remote calls issued, writes to `recorded_file_path`) are logged in the
state so that theorems can speak about them.
-/

namespace RecordAndSend

/-- `OBS_OUTPUT_STOPPED` constant from `record_and_send.py`: the
`outputState` literal signalling a fully stopped output. -/
def OBS_OUTPUT_STOPPED : String := "OBS_WEBSOCKET_OUTPUT_STOPPED"

/-- `DEFAULT_TIMEOUT_SECONDS = 1 * 60 * 60`. -/
def DEFAULT_TIMEOUT_SECONDS : Nat := 1 * 60 * 60

/-- The `datain` payload of a `RecordStateChanged` event.  Each field is
`none` when the corresponding key is absent or maps to `None`. -/
structure Datain where
  outputPath : Option String
  outputState : Option String
deriving DecidableEq

/-- `get_event_output_path(message)`: extracts `(outputPath, outputState)`
from the event.  A falsy `datain` (absent attribute or empty dict) is
modelled as `none` and yields `(None, None)`; otherwise the two keys are
looked up with `dict.get` (defaulting to `None`). -/
def get_event_output_path : Option Datain → Option String × Option String
  | none => (none, none)
  | some d => (d.outputPath, d.outputState)

/-- Python truthiness of an optional string: `None` and `""` are falsy. -/
def pyTruthy : Option String → Bool
  | none => false
  | some s => !s.isEmpty

/-- Python string slicing `s[:n]`: the first `n` characters (all of `s`
when it is shorter). -/
def pySlice (s : String) (n : Nat) : String := String.mk (s.data.take n)

/-- Python `x or y` on optional strings (`None` and `""` are falsy). -/
def pyOrStr (a b : Option String) : Option String :=
  match a with
  | some s => if s.isEmpty then b else some s
  | none => b

/-- Which flow of `start_and_wait_for_stop` issued a remote call: the
orchestrating main flow, or the `stop_on_enter` manual-stop thread. -/
inductive Issuer where
  | orchestrator
  | manualTask
deriving DecidableEq

/-- The OBS requests issued by `start_and_wait_for_stop`. -/
inductive RemoteCall where
  | GetRecordStatus
  | StartRecord
  | StopRecord
deriving DecidableEq

/-- The controller attributes `start_and_wait_for_stop` reads at entry
(`self.connected`, `self.recorded_file_path`, `self.recording_stopped`;
a non-`None` `self.ws` is folded into `connected`). -/
structure Controller where
  connected : Bool
  recorded_file_path : Option String
  recording_stopped : Bool
deriving DecidableEq

/-- State of one `start_and_wait_for_stop` invocation: the controller's
mutable fields plus instrumentation — whether the `RecordStateChanged`
callback is currently registered, whether the manual thread's `input()`
has already returned, the log of remote calls issued, and a counter of
assignments to `recorded_file_path`. -/
structure SessionState where
  connected : Bool
  recorded_file_path : Option String
  recording_stopped : Bool
  handler_registered : Bool
  enter_consumed : Bool
  calls : List (Issuer × RemoteCall)
  path_writes : Nat
deriving DecidableEq

/-- `_on_record_state_changed(message)`: if the event's `outputState`
equals `OBS_OUTPUT_STOPPED` and its `outputPath` is truthy, record the
path and set the completion flag (the write counter instruments the
assignment to `self.recorded_file_path`); otherwise do nothing. -/
def on_record_state_changed (s : SessionState) (datain : Option Datain) :
    SessionState :=
  let op := (get_event_output_path datain).1
  let os := (get_event_output_path datain).2
  if os = some OBS_OUTPUT_STOPPED ∧ pyTruthy op = true then
    { s with recorded_file_path := op, recording_stopped := true,
             path_writes := s.path_writes + 1 }
  else s

/-- Remote collaborator behaviour for one session: the outcome of
`GetRecordStatus().getOutputActive()`, of `StartRecord()`, and of
`StopRecord()` (whose result the manual thread discards). -/
structure Remote where
  recordStatusActive : Except String Bool
  startRecord : Except String Unit
  stopRecord : Except String Unit

/-- Body of the `stop_on_enter` thread after `input()` returns: if the
recording has not already stopped and the connection is up, issue
`StopRecord` (its result, and any exception, is discarded). -/
def stop_on_enter (s : SessionState) : SessionState :=
  if s.recording_stopped = false ∧ s.connected = true then
    { s with calls := s.calls ++ [(Issuer.manualTask, RemoteCall.StopRecord)] }
  else s

/-- One occurrence during the wait window: delivery of a
`RecordStateChanged` event frame, or the user pressing Enter. -/
inductive WaitAction where
  | event (datain : Option Datain)
  | enter
deriving DecidableEq

/-- Effect of one wait-window occurrence.  An event reaches the handler
only while it is registered.  Enter is consumed by the manual thread only
if `stop_from_cli` enabled it and `input()` has not already returned. -/
def apply_wait_action (stop_from_cli : Bool) (s : SessionState) :
    WaitAction → SessionState
  | WaitAction.event d =>
      if s.handler_registered then on_record_state_changed s d else s
  | WaitAction.enter =>
      if stop_from_cli = true ∧ s.enter_consumed = false then
        stop_on_enter { s with enter_consumed := true }
      else s

/-- The registered wait window of `start_and_wait_for_stop`.  The
handler stays registered on the event-delivery thread for the whole
window — from registration until `_unregister_record_callback` runs
after the poll loop `while not self.recording_stopped and
time.monotonic() < deadline: time.sleep(0.3)` exits — so every
occurrence in the window reaches it, including stop-confirmation events
arriving after the completion flag is already set but before
deregistration (the poll loop only wakes every 0.3s, and the code reads
the flag and the path only after deregistering).  The finite `actions`
list is the interleaving of occurrences in that window; exhausting it
with the flag still unset is the timeout. -/
def wait_loop (stop_from_cli : Bool) :
    SessionState → List WaitAction → SessionState
  | s, [] => s
  | s, a :: rest => wait_loop stop_from_cli (apply_wait_action stop_from_cli s a) rest

/-- Whether an occurrence is a stop-confirmation event the handler acts
on: `outputState` equal to `OBS_OUTPUT_STOPPED` together with a truthy
`outputPath`. -/
def is_stop_event : WaitAction → Bool
  | WaitAction.event d =>
      decide ((get_event_output_path d).2 = some OBS_OUTPUT_STOPPED
        ∧ pyTruthy (get_event_output_path d).1 = true)
  | WaitAction.enter => false

/-- Result of one `start_and_wait_for_stop` call: a raised
`click.ClickException` with its message, or a normal return value. -/
inductive RunOutcome where
  | raised (msg : String)
  | returned (path : Option String)
deriving DecidableEq

/-- Message of the guard raise when not connected. -/
def MSG_NOT_CONNECTED : String := "No hay conexión con OBS"

/-- Message of the raise when OBS reports an active recording. -/
def MSG_ALREADY_RECORDING : String :=
  "OBS ya está grabando. Detén la grabación actual primero."

/-- Wrapper applied by the `except` clause around the status check; note
that the inner `AlreadyRecording` ClickException is itself an `Exception`
and is therefore re-wrapped by this same clause. -/
def status_error_msg (e : String) : String := "Error al verificar estado: " ++ e

/-- Wrapper applied when `StartRecord` raises. -/
def start_error_msg (e : String) : String := "Error al iniciar grabación: " ++ e

/-- `start_and_wait_for_stop(timeout_seconds, stop_from_cli)`:
guard on `self.connected`; reset `recorded_file_path`/`recording_stopped`;
check `GetRecordStatus` (any failure, including the `AlreadyRecording`
raise, is re-wrapped by the surrounding `except`); register the
`RecordStateChanged` callback; issue `StartRecord` (unregistering on
failure); run the wait loop; unregister unconditionally; return `None` on
timeout, else `self.recorded_file_path`.  The wall-clock deadline is
abstracted into the finite `actions` list (see `wait_loop`). -/
def start_and_wait_for_stop (ctrl : Controller) (remote : Remote)
    (stop_from_cli : Bool) (actions : List WaitAction) :
    RunOutcome × SessionState :=
  let s0 : SessionState :=
    { connected := ctrl.connected
      recorded_file_path := ctrl.recorded_file_path
      recording_stopped := ctrl.recording_stopped
      handler_registered := false
      enter_consumed := false
      calls := []
      path_writes := 0 }
  if ctrl.connected = false then (RunOutcome.raised MSG_NOT_CONNECTED, s0)
  else
    let s1 := { s0 with recorded_file_path := none, recording_stopped := false }
    let s2 := { s1 with calls := s1.calls ++ [(Issuer.orchestrator, RemoteCall.GetRecordStatus)] }
    match remote.recordStatusActive with
    | Except.error e => (RunOutcome.raised (status_error_msg e), s2)
    | Except.ok true =>
        (RunOutcome.raised (status_error_msg MSG_ALREADY_RECORDING), s2)
    | Except.ok false =>
        let s3 := { s2 with handler_registered := true }
        let s4 := { s3 with calls := s3.calls ++ [(Issuer.orchestrator, RemoteCall.StartRecord)] }
        match remote.startRecord with
        | Except.error e =>
            (RunOutcome.raised (start_error_msg e), { s4 with handler_registered := false })
        | Except.ok _ =>
            let s5 := wait_loop stop_from_cli s4 actions
            let s6 := { s5 with handler_registered := false }
            if s6.recording_stopped = false then (RunOutcome.returned none, s6)
            else (RunOutcome.returned s6.recorded_file_path, s6)

/-! ### `send_file_to_api` (ArtifactUploader) -/

/-- An HTTP response as seen through the `requests` library: status code
and decoded body text. -/
structure HttpResponse where
  status_code : Nat
  text : String
deriving DecidableEq

/-- `requests.Response.ok`: `True` iff `raise_for_status()` would not
raise, i.e. iff the status code is outside `400..599` (in particular 3xx
and ≥ 600 count as ok). -/
def respOk (resp : HttpResponse) : Bool :=
  decide (¬ (400 ≤ resp.status_code ∧ resp.status_code < 600))

/-- The `requests.post` invocation constructed by `send_file_to_api`:
URL, multipart field name, the uploaded file's basename, headers, query
parameters and the fixed timeout. -/
structure HttpRequest where
  url : String
  field_name : String
  filename : String
  headers : List (String × String)
  params : List (String × String)
  timeout : Nat
deriving DecidableEq

/-- `pathlib.Path(p).name`: the final path component. -/
def pathName (p : String) : String := (p.splitOn "/").getLastD p

/-- Return value of `send_file_to_api`: `(True, response)` on success or
`(False, message)` on any failure. -/
inductive SendOutcome where
  | ok (resp : HttpResponse)
  | err (msg : String)
deriving DecidableEq

/-- `send_file_to_api(file_path, api_url, token, field_name)`.
Collaborators are explicit: `is_file` is `Path.is_file()`, `env_api_url`
and `env_token` are `os.getenv` of `RECORD_SEND_API_URL` and
`RECORD_SEND_API_TOKEN`, and `http` performs `requests.post` (an
`Except.error` is a `requests.RequestException`).  Besides the outcome it
returns the list of HTTP requests actually issued. -/
def send_file_to_api (is_file : String → Bool)
    (env_api_url env_token : Option String)
    (http : HttpRequest → Except String HttpResponse)
    (file_path : String) (api_url : Option String) (token : Option String)
    (field_name : String) :
    SendOutcome × List HttpRequest :=
  if is_file file_path = false then
    (SendOutcome.err ("El archivo no existe: " ++ file_path), [])
  else
    let api_url := pyOrStr api_url env_api_url
    if pyTruthy api_url = false then
      (SendOutcome.err "No se especificó API URL (RECORD_SEND_API_URL o --api-url)", [])
    else
      let token := pyOrStr token env_token
      let headers : List (String × String) :=
        match token with
        | some t => if t.isEmpty then [] else [("Authorization", "Bearer " ++ t)]
        | none => []
      let params : List (String × String) := [("model", "small")]
      let req : HttpRequest :=
        { url := api_url.getD ""
          field_name := field_name
          filename := pathName file_path
          headers := headers
          params := params
          timeout := 120 }
      match http req with
      | Except.error e => (SendOutcome.err e, [req])
      | Except.ok resp =>
          if respOk resp then (SendOutcome.ok resp, [req])
          else
            (SendOutcome.err
              ("API respondió " ++ toString resp.status_code ++ ": " ++ pySlice resp.text 500),
             [req])

/-! ### Transcription store -/

/-- A row of the `transcriptions` table.  `created_at` is the insertion
timestamp (`CURRENT_TIMESTAMP`), modelled as a number so that
`ORDER BY created_at` is numeric comparison. -/
structure TranscriptionRow where
  id : Nat
  transcription : String
  language : Option String
  processing_time : Option Rat
  model_used : Option String
  source_file : Option String
  created_at : Nat
deriving DecidableEq

/-- A row of the `segments` table. -/
structure SegmentRow where
  id : Nat
  transcription_id : Nat
  segment_id : Int
  start_time : Rat
  end_time : Rat
  text : String
deriving DecidableEq

/-- The SQLite database: the two tables plus the next AUTOINCREMENT
values of their integer primary keys. -/
structure Database where
  transcriptions : List TranscriptionRow
  segments : List SegmentRow
  next_transcription_id : Nat
  next_segment_rowid : Nat
deriving DecidableEq

/-- A freshly created database file: both tables empty, AUTOINCREMENT
counters starting at 1. -/
def Database.empty : Database :=
  { transcriptions := [], segments := [], next_transcription_id := 1,
    next_segment_rowid := 1 }

/-- `init_database(db_path)`: `CREATE TABLE IF NOT EXISTS` for both
tables — creates an empty database when absent, leaves an existing one
untouched. -/
def init_database : Option Database → Database
  | none => Database.empty
  | some db => db

/-- One element of the `segments` array of the API's JSON response;
each field is `none` when the key is absent (`dict.get` defaults apply
at insertion time). -/
structure SegmentData where
  id : Option Int
  start : Option Rat
  stop : Option Rat
  text : Option String
deriving DecidableEq

/-- The API's JSON response as read by `store_transcription` (again with
`dict.get`, so absent keys are `none`). -/
structure ResponseData where
  transcription : Option String
  language : Option String
  processing_time : Option Rat
  model_used : Option String
  segments : List SegmentData
deriving DecidableEq

/-- The `segments` row inserted for the `i`-th submitted segment of the
record `tid` (defaults mirror `segment.get("id", 0)` etc.). -/
def mkSegmentRow (tid rowid0 : Nat) (p : Nat × SegmentData) : SegmentRow :=
  { id := rowid0 + p.1
    transcription_id := tid
    segment_id := (p.2.id).getD 0
    start_time := (p.2.start).getD 0
    end_time := (p.2.stop).getD 0
    text := (p.2.text).getD "" }

/-- `store_transcription(response_data, source_file, db_path)`: insert
one `transcriptions` row (field defaults as in the source), remember
`cursor.lastrowid`, then insert one `segments` row per submitted segment
in order, and return the transcription id.  `now` is the commit-time
`CURRENT_TIMESTAMP`. -/
def store_transcription (db : Database) (response_data : ResponseData)
    (source_file : Option String) (now : Nat) : Nat × Database :=
  let tid := db.next_transcription_id
  let row : TranscriptionRow :=
    { id := tid
      transcription := response_data.transcription.getD ""
      language := response_data.language
      processing_time := response_data.processing_time
      model_used := response_data.model_used
      source_file := source_file
      created_at := now }
  let segRows := (response_data.segments.enum).map (mkSegmentRow tid db.next_segment_rowid)
  (tid,
   { transcriptions := db.transcriptions ++ [row]
     segments := db.segments ++ segRows
     next_transcription_id := tid + 1
     next_segment_rowid := db.next_segment_rowid + response_data.segments.length })

/-- `ORDER BY segment_id` (ascending). -/
def segLe (s t : SegmentRow) : Prop := s.segment_id ≤ t.segment_id

instance : DecidableRel segLe := fun s t =>
  inferInstanceAs (Decidable (s.segment_id ≤ t.segment_id))

instance : IsTotal SegmentRow segLe :=
  ⟨fun s t => Int.le_total s.segment_id t.segment_id⟩

instance : IsTrans SegmentRow segLe :=
  ⟨fun _ _ _ h h' => le_trans h h'⟩

/-- `ORDER BY created_at DESC`. -/
def createdDesc (s t : TranscriptionRow) : Prop := t.created_at ≤ s.created_at

instance : DecidableRel createdDesc := fun s t =>
  inferInstanceAs (Decidable (t.created_at ≤ s.created_at))

instance : IsTotal TranscriptionRow createdDesc :=
  ⟨fun s t => Nat.le_total t.created_at s.created_at⟩

instance : IsTrans TranscriptionRow createdDesc :=
  ⟨fun _ _ _ h h' => le_trans h' h⟩

/-- The data essence of the `get-transcription` command:
`SELECT ... FROM transcriptions WHERE id = ?` (first match), and
`SELECT ... FROM segments WHERE transcription_id = ? ORDER BY segment_id`. -/
def get_transcription (db : Database) (tid : Nat) :
    Option (TranscriptionRow × List SegmentRow) :=
  match db.transcriptions.find? (fun t => t.id == tid) with
  | none => none
  | some t =>
      some (t,
        List.insertionSort segLe
          (db.segments.filter (fun s => s.transcription_id == tid)))

/-- The data essence of the `list-transcriptions` command:
`SELECT ... FROM transcriptions ORDER BY created_at DESC LIMIT ?`. -/
def list_transcriptions (db : Database) (limit : Nat) : List TranscriptionRow :=
  (List.insertionSort createdDesc db.transcriptions).take limit

/-- Well-formedness of a reachable database: every stored id is below the
AUTOINCREMENT counter and every segment references such an id. -/
def Database.WF (db : Database) : Prop :=
  (∀ t ∈ db.transcriptions, t.id < db.next_transcription_id)
  ∧ (∀ s ∈ db.segments, s.transcription_id < db.next_transcription_id)

/-- Number of `StopRecord` entries in a call log. -/
def stop_calls (calls : List (Issuer × RemoteCall)) : Nat :=
  (calls.filter (fun c => decide (c.2 = RemoteCall.StopRecord))).length

/-! ### Helper lemmas about the wait loop -/

theorem pyTruthy_isSome {o : Option String} (h : pyTruthy o = true) :
    o.isSome = true := by
  cases o <;> simp [pyTruthy] at h ⊢

theorem on_record_state_changed_calls (s : SessionState) (d : Option Datain) :
    (on_record_state_changed s d).calls = s.calls
    ∧ (on_record_state_changed s d).enter_consumed = s.enter_consumed
    ∧ (on_record_state_changed s d).handler_registered = s.handler_registered
    ∧ (on_record_state_changed s d).connected = s.connected := by
  simp only [on_record_state_changed]
  split <;> simp

theorem apply_enter_fields (sfc : Bool) (s : SessionState) :
    (apply_wait_action sfc s WaitAction.enter).recorded_file_path = s.recorded_file_path
    ∧ (apply_wait_action sfc s WaitAction.enter).recording_stopped = s.recording_stopped
    ∧ (apply_wait_action sfc s WaitAction.enter).path_writes = s.path_writes
    ∧ (apply_wait_action sfc s WaitAction.enter).handler_registered = s.handler_registered
    ∧ (apply_wait_action sfc s WaitAction.enter).connected = s.connected := by
  simp only [apply_wait_action, stop_on_enter]
  split
  · split <;> simp
  · simp

theorem apply_enter_calls_of_stopped (sfc : Bool) (s : SessionState)
    (h : s.recording_stopped = true) :
    (apply_wait_action sfc s WaitAction.enter).calls = s.calls := by
  simp only [apply_wait_action, stop_on_enter, h]
  split
  · simp
  · rfl

theorem apply_wait_action_handler (sfc : Bool) (s : SessionState)
    (a : WaitAction) :
    (apply_wait_action sfc s a).handler_registered = s.handler_registered := by
  cases a with
  | event d =>
    simp only [apply_wait_action]
    split
    · exact (on_record_state_changed_calls s d).2.2.1
    · rfl
  | enter => exact (apply_enter_fields sfc s).2.2.2.1

/-- The handler only ever sets the completion flag, never clears it. -/
theorem apply_stopped_mono (sfc : Bool) (s : SessionState) (a : WaitAction)
    (h : s.recording_stopped = true) :
    (apply_wait_action sfc s a).recording_stopped = true := by
  cases a with
  | event d =>
    simp only [apply_wait_action]
    split
    · rw [on_record_state_changed]
      split
      · rfl
      · exact h
    · exact h
  | enter => exact (apply_enter_fields sfc s).2.1.trans h

/-- A stop-confirmation event delivered while the handler is registered
sets the flag and performs one path write. -/
theorem apply_stop_event_effect (sfc : Bool) (s : SessionState)
    (a : WaitAction) (hreg : s.handler_registered = true)
    (hb : is_stop_event a = true) :
    (apply_wait_action sfc s a).recording_stopped = true
    ∧ (apply_wait_action sfc s a).path_writes = s.path_writes + 1 := by
  cases a with
  | enter => exact absurd hb (by simp [is_stop_event])
  | event d =>
    have hcond : (get_event_output_path d).2 = some OBS_OUTPUT_STOPPED
        ∧ pyTruthy (get_event_output_path d).1 = true :=
      of_decide_eq_true hb
    simp only [apply_wait_action]
    rw [if_pos hreg, on_record_state_changed, if_pos hcond]
    exact ⟨rfl, rfl⟩

/-- Any other occurrence leaves the flag, the path and the write counter
untouched. -/
theorem apply_non_stop_effect (sfc : Bool) (s : SessionState)
    (a : WaitAction) (hb : is_stop_event a = false) :
    (apply_wait_action sfc s a).recording_stopped = s.recording_stopped
    ∧ (apply_wait_action sfc s a).recorded_file_path = s.recorded_file_path
    ∧ (apply_wait_action sfc s a).path_writes = s.path_writes := by
  cases a with
  | enter =>
    exact ⟨(apply_enter_fields sfc s).2.1, (apply_enter_fields sfc s).1,
      (apply_enter_fields sfc s).2.2.1⟩
  | event d =>
    have hcond : ¬ ((get_event_output_path d).2 = some OBS_OUTPUT_STOPPED
        ∧ pyTruthy (get_event_output_path d).1 = true) :=
      of_decide_eq_false hb
    simp only [apply_wait_action]
    split
    · rw [on_record_state_changed, if_neg hcond]
      exact ⟨rfl, rfl, rfl⟩
    · exact ⟨rfl, rfl, rfl⟩

/-- The handler stays registered across the whole wait window. -/
theorem wait_loop_handler (sfc : Bool) (acts : List WaitAction)
    (s : SessionState) :
    (wait_loop sfc s acts).handler_registered = s.handler_registered := by
  induction acts generalizing s with
  | nil => rfl
  | cons a rest ih =>
    rw [wait_loop, ih, apply_wait_action_handler]

/-- Once the completion flag is set it stays set for the rest of the
window. -/
theorem wait_loop_stopped_mono (sfc : Bool) (acts : List WaitAction)
    (s : SessionState) (h : s.recording_stopped = true) :
    (wait_loop sfc s acts).recording_stopped = true := by
  induction acts generalizing s with
  | nil => simpa [wait_loop] using h
  | cons a rest ih =>
    rw [wait_loop]
    exact ih _ (apply_stopped_mono sfc s a h)

/-- Every stop-confirmation event in the window writes the path once:
the write counter grows by exactly the number of such events — two
stop-confirmation events before deregistration mean two writes. -/
theorem wait_loop_writes_count (sfc : Bool) (acts : List WaitAction)
    (s : SessionState) (hreg : s.handler_registered = true) :
    (wait_loop sfc s acts).path_writes
      = s.path_writes + acts.countP is_stop_event := by
  induction acts generalizing s with
  | nil => simp [wait_loop]
  | cons a rest ih =>
    rw [wait_loop, ih _ ((apply_wait_action_handler sfc s a).trans hreg),
      List.countP_cons]
    cases hb : is_stop_event a with
    | true =>
      rw [(apply_stop_event_effect sfc s a hreg hb).2, if_pos rfl]
      omega
    | false =>
      rw [(apply_non_stop_effect sfc s a hb).2.2, if_neg (by simp)]
      omega

/-- The completion flag ends up set iff the window contained at least one
stop-confirmation event. -/
theorem wait_loop_stopped_count (sfc : Bool) (acts : List WaitAction)
    (s : SessionState) (hreg : s.handler_registered = true)
    (hs : s.recording_stopped = false) :
    ((wait_loop sfc s acts).recording_stopped = true
      ↔ 0 < acts.countP is_stop_event) := by
  induction acts generalizing s with
  | nil => simp [wait_loop, hs]
  | cons a rest ih =>
    rw [wait_loop, List.countP_cons]
    cases hb : is_stop_event a with
    | true =>
      have heff := apply_stop_event_effect sfc s a hreg hb
      refine iff_of_true (wait_loop_stopped_mono sfc rest _ heff.1) ?_
      rw [if_pos rfl]
      omega
    | false =>
      rw [ih _ ((apply_wait_action_handler sfc s a).trans hreg)
        ((apply_non_stop_effect sfc s a hb).1.trans hs)]
      rw [if_neg (by simp)]
      omega

/-- The handler sets the path and the flag together, so "path present iff
flag set" is preserved across the window. -/
theorem wait_loop_iff_inv (sfc : Bool) (acts : List WaitAction)
    (s : SessionState)
    (hinv : s.recorded_file_path.isSome = true ↔ s.recording_stopped = true) :
    ((wait_loop sfc s acts).recorded_file_path.isSome = true
      ↔ (wait_loop sfc s acts).recording_stopped = true) := by
  induction acts generalizing s with
  | nil => simpa [wait_loop] using hinv
  | cons a rest ih =>
    rw [wait_loop]
    apply ih
    cases a with
    | enter =>
      rw [(apply_enter_fields sfc s).1, (apply_enter_fields sfc s).2.1]
      exact hinv
    | event d =>
      simp only [apply_wait_action]
      by_cases hreg : s.handler_registered
      · rw [if_pos hreg, on_record_state_changed]
        by_cases hcond : (get_event_output_path d).2 = some OBS_OUTPUT_STOPPED
            ∧ pyTruthy (get_event_output_path d).1 = true
        · rw [if_pos hcond]
          simp [pyTruthy_isSome hcond.2]
        · rw [if_neg hcond]
          exact hinv
      · rw [if_neg hreg]
        exact hinv

/-- A path present at the end of the window either was present at its
start or was carried by a stop-confirmation event of the window. -/
theorem wait_loop_path_source (sfc : Bool) (acts : List WaitAction)
    (s : SessionState) (p : String)
    (h : (wait_loop sfc s acts).recorded_file_path = some p) :
    s.recorded_file_path = some p
    ∨ ∃ d, WaitAction.event d ∈ acts
        ∧ (get_event_output_path d).1 = some p
        ∧ (get_event_output_path d).2 = some OBS_OUTPUT_STOPPED := by
  induction acts generalizing s with
  | nil => exact Or.inl (by simpa [wait_loop] using h)
  | cons a rest ih =>
    rw [wait_loop] at h
    rcases ih _ h with h1 | ⟨d, hd, h2, h3⟩
    · cases a with
      | enter => exact Or.inl (((apply_enter_fields sfc s).1).symm.trans h1)
      | event d =>
        by_cases hreg : s.handler_registered
        · simp only [apply_wait_action] at h1
          rw [if_pos hreg, on_record_state_changed] at h1
          by_cases hcond : (get_event_output_path d).2 = some OBS_OUTPUT_STOPPED
              ∧ pyTruthy (get_event_output_path d).1 = true
          · rw [if_pos hcond] at h1
            exact Or.inr ⟨d, List.mem_cons_self _ _, h1, hcond.1⟩
          · rw [if_neg hcond] at h1
            exact Or.inl h1
        · simp only [apply_wait_action] at h1
          rw [if_neg hreg] at h1
          exact Or.inl h1
    · exact Or.inr ⟨d, List.mem_cons_of_mem _ hd, h2, h3⟩

/-- If no wait-window event carries the `OBS_OUTPUT_STOPPED` state, the
completion flag can never be set during the wait window. -/
theorem wait_loop_no_stop (sfc : Bool) (acts : List WaitAction)
    (s : SessionState) (hs : s.recording_stopped = false)
    (hnoev : ∀ d, WaitAction.event d ∈ acts →
      (get_event_output_path d).2 ≠ some OBS_OUTPUT_STOPPED) :
    (wait_loop sfc s acts).recording_stopped = false := by
  induction acts generalizing s with
  | nil => simpa [wait_loop] using hs
  | cons a rest ih =>
    rw [wait_loop]
    refine ih _ ?_ (fun d hd => hnoev d (List.mem_cons_of_mem _ hd))
    cases a with
    | enter => exact (apply_enter_fields sfc s).2.1.trans hs
    | event d =>
      have hd := hnoev d (List.mem_cons_self _ _)
      have hb : is_stop_event (WaitAction.event d) = false :=
        decide_eq_false (fun hcc => hd hcc.1)
      exact (apply_non_stop_effect sfc s _ hb).1.trans hs

/-- The wait window only ever appends manual-task `StopRecord` entries to
the call log: any property true of the incoming log and true of
`(manualTask, StopRecord)` holds of the final log. -/
theorem wait_loop_calls_stop_source (sfc : Bool) (acts : List WaitAction)
    (s : SessionState)
    (h : ∀ c ∈ s.calls, c.2 = RemoteCall.StopRecord → c.1 = Issuer.manualTask) :
    ∀ c ∈ (wait_loop sfc s acts).calls,
      c.2 = RemoteCall.StopRecord → c.1 = Issuer.manualTask := by
  induction acts generalizing s with
  | nil => simpa [wait_loop] using h
  | cons a rest ih =>
    rw [wait_loop]
    apply ih
    cases a with
    | event d =>
      by_cases hreg : s.handler_registered
      · simpa [apply_wait_action, if_pos hreg,
          (on_record_state_changed_calls s d).1] using h
      · simpa [apply_wait_action, if_neg hreg] using h
    | enter =>
      intro c hc
      simp only [apply_wait_action, stop_on_enter] at hc
      by_cases hg : sfc = true ∧ s.enter_consumed = false
      · rw [if_pos hg] at hc
        by_cases hg2 : s.recording_stopped = false ∧ s.connected = true
        · simp only [if_pos hg2] at hc
          simp only [List.mem_append, List.mem_singleton] at hc
          rcases hc with hc | hc
          · exact h c hc
          · intro _; rw [hc]
        · simp only [if_neg hg2] at hc
          exact h c hc
      · rw [if_neg hg] at hc
        exact h c hc

theorem stop_calls_append_stop (l : List (Issuer × RemoteCall)) :
    stop_calls (l ++ [(Issuer.manualTask, RemoteCall.StopRecord)])
      = stop_calls l + 1 := by
  simp [stop_calls, List.filter_append]

/-- At most one `StopRecord` is ever issued during the wait window: the
manual thread's `input()` returns at most once, and its body is guarded
by the completion flag. -/
theorem wait_loop_stop_calls (sfc : Bool) (acts : List WaitAction)
    (s : SessionState)
    (h0 : s.enter_consumed = false → stop_calls s.calls = 0)
    (h1 : stop_calls s.calls ≤ 1) :
    stop_calls (wait_loop sfc s acts).calls ≤ 1 := by
  induction acts generalizing s with
  | nil => simpa [wait_loop] using h1
  | cons a rest ih =>
    rw [wait_loop]
    cases a with
    | event d =>
      apply ih
      · by_cases hreg : s.handler_registered
        · simpa [apply_wait_action, if_pos hreg,
            (on_record_state_changed_calls s d).1,
            (on_record_state_changed_calls s d).2.1] using h0
        · simpa [apply_wait_action, if_neg hreg] using h0
      · by_cases hreg : s.handler_registered
        · simpa [apply_wait_action, if_pos hreg,
            (on_record_state_changed_calls s d).1] using h1
        · simpa [apply_wait_action, if_neg hreg] using h1
    | enter =>
      by_cases hg : sfc = true ∧ s.enter_consumed = false
      · have hz : stop_calls s.calls = 0 := h0 hg.2
        simp only [apply_wait_action, if_pos hg, stop_on_enter]
        by_cases hg2 : s.recording_stopped = false ∧ s.connected = true
        · simp only [if_pos hg2]
          apply ih
          · intro hcons; simp at hcons
          · simp [stop_calls_append_stop, hz]
        · simp only [if_neg hg2]
          apply ih
          · intro hcons; simp at hcons
          · simpa using h1
      · simp only [apply_wait_action, if_neg hg]
        exact ih _ h0 h1

/-! ### Reductions of `start_and_wait_for_stop` by remote behaviour -/

theorem run_status_error (ctrl : Controller) (remote : Remote) (sfc : Bool)
    (actions : List WaitAction) (e : String) (hc : ctrl.connected = true)
    (hrs : remote.recordStatusActive = Except.error e) :
    start_and_wait_for_stop ctrl remote sfc actions
      = (RunOutcome.raised (status_error_msg e),
         { connected := true, recorded_file_path := none, recording_stopped := false,
           handler_registered := false, enter_consumed := false,
           calls := [(Issuer.orchestrator, RemoteCall.GetRecordStatus)],
           path_writes := 0 }) := by
  simp [start_and_wait_for_stop, hc, hrs]

theorem run_already_recording (ctrl : Controller) (remote : Remote) (sfc : Bool)
    (actions : List WaitAction) (hc : ctrl.connected = true)
    (hrs : remote.recordStatusActive = Except.ok true) :
    start_and_wait_for_stop ctrl remote sfc actions
      = (RunOutcome.raised (status_error_msg MSG_ALREADY_RECORDING),
         { connected := true, recorded_file_path := none, recording_stopped := false,
           handler_registered := false, enter_consumed := false,
           calls := [(Issuer.orchestrator, RemoteCall.GetRecordStatus)],
           path_writes := 0 }) := by
  simp [start_and_wait_for_stop, hc, hrs]

theorem run_start_error (ctrl : Controller) (remote : Remote) (sfc : Bool)
    (actions : List WaitAction) (e : String) (hc : ctrl.connected = true)
    (hrs : remote.recordStatusActive = Except.ok false)
    (hst : remote.startRecord = Except.error e) :
    start_and_wait_for_stop ctrl remote sfc actions
      = (RunOutcome.raised (start_error_msg e),
         { connected := true, recorded_file_path := none, recording_stopped := false,
           handler_registered := false, enter_consumed := false,
           calls := [(Issuer.orchestrator, RemoteCall.GetRecordStatus),
                     (Issuer.orchestrator, RemoteCall.StartRecord)],
           path_writes := 0 }) := by
  simp [start_and_wait_for_stop, hc, hrs, hst]

/-- The session state at the moment the wait loop begins (recording
started, handler registered, both completion fields reset). -/
def activeState : SessionState :=
  { connected := true, recorded_file_path := none, recording_stopped := false,
    handler_registered := true, enter_consumed := false,
    calls := [(Issuer.orchestrator, RemoteCall.GetRecordStatus),
              (Issuer.orchestrator, RemoteCall.StartRecord)],
    path_writes := 0 }

theorem run_started (ctrl : Controller) (remote : Remote) (sfc : Bool)
    (actions : List WaitAction) (hc : ctrl.connected = true)
    (hrs : remote.recordStatusActive = Except.ok false)
    (hst : remote.startRecord = Except.ok ()) :
    start_and_wait_for_stop ctrl remote sfc actions
      = (if (wait_loop sfc activeState actions).recording_stopped = false
           then RunOutcome.returned none
           else RunOutcome.returned (wait_loop sfc activeState actions).recorded_file_path,
         { wait_loop sfc activeState actions with handler_registered := false }) := by
  simp only [start_and_wait_for_stop, hc, hrs, hst, activeState]
  norm_num
  split <;> rfl

/-- The wait window never removes entries from the call log. -/
theorem wait_loop_calls_mono (sfc : Bool) (acts : List WaitAction)
    (s : SessionState) (c : Issuer × RemoteCall) (h : c ∈ s.calls) :
    c ∈ (wait_loop sfc s acts).calls := by
  induction acts generalizing s with
  | nil => simpa [wait_loop] using h
  | cons a rest ih =>
    rw [wait_loop]
    apply ih
    cases a with
    | event d =>
      by_cases hreg : s.handler_registered
      · simpa [apply_wait_action, hreg, (on_record_state_changed_calls s d).1] using h
      · simpa [apply_wait_action, hreg] using h
    | enter =>
      simp only [apply_wait_action, stop_on_enter]
      split
      · split
        · simp only [List.mem_append]
          exact Or.inl h
        · exact h
      · exact h

/-- A returned non-`None` path implies: the completion flag was set, the
handler wrote the path at least once during this invocation, the final
path is the returned one, and some stop-confirmation event of this
invocation's window carried exactly that path. -/
theorem run_returned_some (ctrl : Controller) (remote : Remote) (sfc : Bool)
    (actions : List WaitAction) (p : String) (hc : ctrl.connected = true)
    (hp : (start_and_wait_for_stop ctrl remote sfc actions).1
        = RunOutcome.returned (some p)) :
    (start_and_wait_for_stop ctrl remote sfc actions).2.recording_stopped = true
    ∧ 1 ≤ (start_and_wait_for_stop ctrl remote sfc actions).2.path_writes
    ∧ (start_and_wait_for_stop ctrl remote sfc actions).2.recorded_file_path
        = some p
    ∧ ∃ d, WaitAction.event d ∈ actions
        ∧ (get_event_output_path d).1 = some p
        ∧ (get_event_output_path d).2 = some OBS_OUTPUT_STOPPED := by
  cases hrs : remote.recordStatusActive with
  | error e =>
    rw [run_status_error ctrl remote sfc actions e hc hrs] at hp
    exact absurd hp (by simp)
  | ok b =>
    cases b with
    | true =>
      rw [run_already_recording ctrl remote sfc actions hc hrs] at hp
      exact absurd hp (by simp)
    | false =>
      cases hst : remote.startRecord with
      | error e =>
        rw [run_start_error ctrl remote sfc actions e hc hrs hst] at hp
        exact absurd hp (by simp)
      | ok u =>
        cases u
        rw [run_started ctrl remote sfc actions hc hrs hst] at hp
        rw [run_started ctrl remote sfc actions hc hrs hst]
        by_cases hF : (wait_loop sfc activeState actions).recording_stopped = false
        · rw [if_pos hF] at hp
          exact absurd hp (by simp)
        · rw [if_neg hF] at hp
          have hstop : (wait_loop sfc activeState actions).recording_stopped = true := by
            revert hF
            cases (wait_loop sfc activeState actions).recording_stopped <;> simp
          have hpath : (wait_loop sfc activeState actions).recorded_file_path = some p := by
            simpa using hp
          have hcount := (wait_loop_stopped_count sfc actions activeState rfl rfl).mp hstop
          have hwrites := wait_loop_writes_count sfc actions activeState rfl
          refine ⟨hstop, ?_, by simpa using hpath, ?_⟩
          · show 1 ≤ (wait_loop sfc activeState actions).path_writes
            rw [hwrites]
            omega
          · rcases wait_loop_path_source sfc actions activeState p hpath with h0 | hsrc
            · exact absurd h0 (by simp [activeState])
            · exact hsrc

/-! ### Claim theorems -/

/-- C1 counterexample: a session in which a second
`OBS_WEBSOCKET_OUTPUT_STOPPED` event is delivered before the handler is
deregistered (the poll loop wakes only every 0.3s) writes
`recorded_file_path` twice — refuting "set exactly once per session".
The session reaches the stopped state and returns the second event's
path. -/
theorem c1_counterexample_double_stop_event :
    (start_and_wait_for_stop ⟨true, none, false⟩
        ⟨Except.ok false, Except.ok (), Except.ok ()⟩ true
        [WaitAction.event (some ⟨some "/tmp/a.wav", some OBS_OUTPUT_STOPPED⟩),
         WaitAction.event (some ⟨some "/tmp/b.wav", some OBS_OUTPUT_STOPPED⟩)]).1
      = RunOutcome.returned (some "/tmp/b.wav")
    ∧ (start_and_wait_for_stop ⟨true, none, false⟩
        ⟨Except.ok false, Except.ok (), Except.ok ()⟩ true
        [WaitAction.event (some ⟨some "/tmp/a.wav", some OBS_OUTPUT_STOPPED⟩),
         WaitAction.event (some ⟨some "/tmp/b.wav", some OBS_OUTPUT_STOPPED⟩)]).2.path_writes
      = 2 := by
  constructor
  · decide
  · decide

/-- C1 amended: for every session run by `start_and_wait_for_stop` on a
connected controller, the recorded output path is set iff the session
reaches the stopped state; the only writer is the `RecordStateChanged`
handler — the manual-stop action never writes the path and a timed-out
session has performed no write; and once the recording starts, the
number of writes equals the number of stop-confirmation events (stopped
state with truthy path) delivered while the handler is registered — so
the path is written exactly once when the remote delivers exactly one
stop-confirmation event, but a second such event before deregistration
produces a second write. -/
theorem c1_output_path_iff_stopped (ctrl : Controller) (remote : Remote)
    (sfc : Bool) (actions : List WaitAction) (hc : ctrl.connected = true) :
    ((start_and_wait_for_stop ctrl remote sfc actions).2.recorded_file_path.isSome = true
        ↔ (start_and_wait_for_stop ctrl remote sfc actions).2.recording_stopped = true)
    ∧ (remote.recordStatusActive = Except.ok false →
        remote.startRecord = Except.ok () →
        (start_and_wait_for_stop ctrl remote sfc actions).2.path_writes
          = actions.countP is_stop_event)
    ∧ (∀ s : SessionState,
        (apply_wait_action sfc s WaitAction.enter).recorded_file_path
            = s.recorded_file_path
        ∧ (apply_wait_action sfc s WaitAction.enter).path_writes = s.path_writes) := by
  refine ⟨?_, ?_,
    fun s => ⟨(apply_enter_fields sfc s).1, (apply_enter_fields sfc s).2.2.1⟩⟩
  · cases hrs : remote.recordStatusActive with
    | error e => rw [run_status_error ctrl remote sfc actions e hc hrs]; simp
    | ok b =>
      cases b with
      | true => rw [run_already_recording ctrl remote sfc actions hc hrs]; simp
      | false =>
        cases hst : remote.startRecord with
        | error e => rw [run_start_error ctrl remote sfc actions e hc hrs hst]; simp
        | ok u =>
          cases u
          rw [run_started ctrl remote sfc actions hc hrs hst]
          simpa using
            wait_loop_iff_inv sfc actions activeState (by simp [activeState])
  · intro hrs hst
    rw [run_started ctrl remote sfc actions hc hrs hst]
    simpa [activeState] using wait_loop_writes_count sfc actions activeState rfl

theorem c1_witness :
    ((⟨true, none, false⟩ : Controller).connected = true)
    ∧ (((start_and_wait_for_stop ⟨true, none, false⟩
            ⟨Except.ok false, Except.ok (), Except.ok ()⟩ true
            [WaitAction.event
              (some ⟨some "/tmp/a.wav", some OBS_OUTPUT_STOPPED⟩)]).2.recorded_file_path.isSome = true
        ↔ (start_and_wait_for_stop ⟨true, none, false⟩
            ⟨Except.ok false, Except.ok (), Except.ok ()⟩ true
            [WaitAction.event
              (some ⟨some "/tmp/a.wav", some OBS_OUTPUT_STOPPED⟩)]).2.recording_stopped = true)
      ∧ ((⟨Except.ok false, Except.ok (), Except.ok ()⟩ : Remote).recordStatusActive
            = Except.ok false →
          (⟨Except.ok false, Except.ok (), Except.ok ()⟩ : Remote).startRecord
            = Except.ok () →
          (start_and_wait_for_stop ⟨true, none, false⟩
              ⟨Except.ok false, Except.ok (), Except.ok ()⟩ true
              [WaitAction.event
                (some ⟨some "/tmp/a.wav", some OBS_OUTPUT_STOPPED⟩)]).2.path_writes
            = List.countP is_stop_event
                [WaitAction.event
                  (some ⟨some "/tmp/a.wav", some OBS_OUTPUT_STOPPED⟩)])
      ∧ (∀ s : SessionState,
          (apply_wait_action true s WaitAction.enter).recorded_file_path
              = s.recorded_file_path
          ∧ (apply_wait_action true s WaitAction.enter).path_writes = s.path_writes)) :=
  ⟨rfl,
   c1_output_path_iff_stopped ⟨true, none, false⟩
     ⟨Except.ok false, Except.ok (), Except.ok ()⟩ true
     [WaitAction.event (some ⟨some "/tmp/a.wav", some OBS_OUTPUT_STOPPED⟩)] rfl⟩

/-- C9: a `RecordStateChanged` event whose `outputState` equals
`OBS_WEBSOCKET_OUTPUT_STOPPED` but whose `outputPath` is `None`/absent or
the empty string leaves the handler's state completely unchanged: no path
is recorded and the completion flag is not set. -/
theorem c9_stopped_event_without_path_no_transition (s : SessionState)
    (d : Option Datain)
    (hstate : (get_event_output_path d).2 = some OBS_OUTPUT_STOPPED)
    (hpath : (get_event_output_path d).1 = none
      ∨ (get_event_output_path d).1 = some "") :
    on_record_state_changed s d = s := by
  rw [on_record_state_changed, if_neg]
  rintro ⟨-, ht⟩
  rcases hpath with h | h <;> rw [h] at ht <;> exact absurd ht (by decide)

theorem c9_witness :
    ((get_event_output_path
        (some ⟨some "", some OBS_OUTPUT_STOPPED⟩)).2 = some OBS_OUTPUT_STOPPED)
    ∧ ((get_event_output_path (some ⟨some "", some OBS_OUTPUT_STOPPED⟩)).1 = none
        ∨ (get_event_output_path (some ⟨some "", some OBS_OUTPUT_STOPPED⟩)).1 = some "")
    ∧ on_record_state_changed
        ⟨true, none, false, true, false, [], 0⟩
        (some ⟨some "", some OBS_OUTPUT_STOPPED⟩)
      = ⟨true, none, false, true, false, [], 0⟩ :=
  ⟨rfl, Or.inr rfl,
   c9_stopped_event_without_path_no_transition
     ⟨true, none, false, true, false, [], 0⟩
     (some ⟨some "", some OBS_OUTPUT_STOPPED⟩) rfl (Or.inr rfl)⟩

/-- C10: on a connected controller, `start_and_wait_for_stop` behaves
identically whatever stale `recorded_file_path`/`recording_stopped`
values are left from a previous session (both are reset before any
remote interaction), and a returned non-`None` path was written by the
event handler during this very invocation: the completion flag is set,
at least one handler write happened, and some stop-confirmation event of
this invocation's window carried exactly the returned path — never a
stale value. -/
theorem c10_reset_before_remote_interaction (ctrl : Controller)
    (remote : Remote) (sfc : Bool) (actions : List WaitAction)
    (hc : ctrl.connected = true) :
    start_and_wait_for_stop ctrl remote sfc actions
      = start_and_wait_for_stop
          { connected := ctrl.connected, recorded_file_path := none,
            recording_stopped := false } remote sfc actions
    ∧ (∀ p : String,
        (start_and_wait_for_stop ctrl remote sfc actions).1
            = RunOutcome.returned (some p) →
        (start_and_wait_for_stop ctrl remote sfc actions).2.recording_stopped = true
        ∧ 1 ≤ (start_and_wait_for_stop ctrl remote sfc actions).2.path_writes
        ∧ (start_and_wait_for_stop ctrl remote sfc actions).2.recorded_file_path
            = some p
        ∧ ∃ d, WaitAction.event d ∈ actions
            ∧ (get_event_output_path d).1 = some p
            ∧ (get_event_output_path d).2 = some OBS_OUTPUT_STOPPED) :=
  ⟨by simp [start_and_wait_for_stop, hc],
   fun p hp => run_returned_some ctrl remote sfc actions p hc hp⟩

theorem c10_witness :
    ((⟨true, some "/stale.wav", true⟩ : Controller).connected = true)
    ∧ (start_and_wait_for_stop ⟨true, some "/stale.wav", true⟩
          ⟨Except.ok false, Except.ok (), Except.ok ()⟩ true []
        = start_and_wait_for_stop
            { connected := (⟨true, some "/stale.wav", true⟩ : Controller).connected,
              recorded_file_path := none, recording_stopped := false }
            ⟨Except.ok false, Except.ok (), Except.ok ()⟩ true []
      ∧ (∀ p : String,
          (start_and_wait_for_stop ⟨true, some "/stale.wav", true⟩
              ⟨Except.ok false, Except.ok (), Except.ok ()⟩ true []).1
              = RunOutcome.returned (some p) →
          (start_and_wait_for_stop ⟨true, some "/stale.wav", true⟩
              ⟨Except.ok false, Except.ok (), Except.ok ()⟩ true
              []).2.recording_stopped = true
          ∧ 1 ≤ (start_and_wait_for_stop ⟨true, some "/stale.wav", true⟩
              ⟨Except.ok false, Except.ok (), Except.ok ()⟩ true []).2.path_writes
          ∧ (start_and_wait_for_stop ⟨true, some "/stale.wav", true⟩
              ⟨Except.ok false, Except.ok (), Except.ok ()⟩ true
              []).2.recorded_file_path = some p
          ∧ ∃ d, WaitAction.event d ∈ ([] : List WaitAction)
              ∧ (get_event_output_path d).1 = some p
              ∧ (get_event_output_path d).2 = some OBS_OUTPUT_STOPPED)) :=
  ⟨rfl,
   c10_reset_before_remote_interaction ⟨true, some "/stale.wav", true⟩
     ⟨Except.ok false, Except.ok (), Except.ok ()⟩ true [] rfl⟩

/-- C2: with the manual-stop task enabled, a whole session issues at
most one `StopRecord` call; the manual task issues none at all when the
completion flag is already set when Enter fires; the manual task never
writes the path or the completion flag; and a session completes with an
artifact path only through the event handler: the flag is set and at
least one handler write happened during this invocation. -/
theorem c2_manual_stop_at_most_once (ctrl : Controller) (remote : Remote)
    (actions : List WaitAction) (hc : ctrl.connected = true) :
    stop_calls (start_and_wait_for_stop ctrl remote true actions).2.calls ≤ 1
    ∧ (∀ s : SessionState, s.recording_stopped = true →
        (apply_wait_action true s WaitAction.enter).calls = s.calls)
    ∧ (∀ s : SessionState,
        (apply_wait_action true s WaitAction.enter).recorded_file_path
            = s.recorded_file_path
        ∧ (apply_wait_action true s WaitAction.enter).recording_stopped
            = s.recording_stopped)
    ∧ (∀ p : String,
        (start_and_wait_for_stop ctrl remote true actions).1
            = RunOutcome.returned (some p) →
        (start_and_wait_for_stop ctrl remote true actions).2.recording_stopped = true
        ∧ 1 ≤ (start_and_wait_for_stop ctrl remote true actions).2.path_writes) := by
  refine ⟨?_, fun s hs => apply_enter_calls_of_stopped true s hs,
    fun s => ⟨(apply_enter_fields true s).1, (apply_enter_fields true s).2.1⟩,
    fun p hp => ⟨(run_returned_some ctrl remote true actions p hc hp).1,
                 (run_returned_some ctrl remote true actions p hc hp).2.1⟩⟩
  cases hrs : remote.recordStatusActive with
  | error e =>
    rw [run_status_error ctrl remote true actions e hc hrs]
    simp [stop_calls]
  | ok b =>
    cases b with
    | true =>
      rw [run_already_recording ctrl remote true actions hc hrs]
      decide
    | false =>
      cases hst : remote.startRecord with
      | error e =>
        rw [run_start_error ctrl remote true actions e hc hrs hst]
        simp [stop_calls]
      | ok u =>
        cases u
        rw [run_started ctrl remote true actions hc hrs hst]
        exact wait_loop_stop_calls true actions activeState
          (fun _ => by decide) (by decide)

theorem c2_witness :
    ((⟨true, none, false⟩ : Controller).connected = true)
    ∧ (stop_calls (start_and_wait_for_stop ⟨true, none, false⟩
          ⟨Except.ok false, Except.ok (), Except.ok ()⟩ true
          [WaitAction.enter,
           WaitAction.event (some ⟨some "/tmp/a.wav", some OBS_OUTPUT_STOPPED⟩),
           WaitAction.enter]).2.calls ≤ 1
      ∧ (∀ s : SessionState, s.recording_stopped = true →
          (apply_wait_action true s WaitAction.enter).calls = s.calls)
      ∧ (∀ s : SessionState,
          (apply_wait_action true s WaitAction.enter).recorded_file_path
              = s.recorded_file_path
          ∧ (apply_wait_action true s WaitAction.enter).recording_stopped
              = s.recording_stopped)
      ∧ (∀ p : String,
          (start_and_wait_for_stop ⟨true, none, false⟩
              ⟨Except.ok false, Except.ok (), Except.ok ()⟩ true
              [WaitAction.enter,
               WaitAction.event (some ⟨some "/tmp/a.wav", some OBS_OUTPUT_STOPPED⟩),
               WaitAction.enter]).1 = RunOutcome.returned (some p) →
          (start_and_wait_for_stop ⟨true, none, false⟩
              ⟨Except.ok false, Except.ok (), Except.ok ()⟩ true
              [WaitAction.enter,
               WaitAction.event (some ⟨some "/tmp/a.wav", some OBS_OUTPUT_STOPPED⟩),
               WaitAction.enter]).2.recording_stopped = true
          ∧ 1 ≤ (start_and_wait_for_stop ⟨true, none, false⟩
              ⟨Except.ok false, Except.ok (), Except.ok ()⟩ true
              [WaitAction.enter,
               WaitAction.event (some ⟨some "/tmp/a.wav", some OBS_OUTPUT_STOPPED⟩),
               WaitAction.enter]).2.path_writes)) :=
  ⟨rfl,
   c2_manual_stop_at_most_once ⟨true, none, false⟩
     ⟨Except.ok false, Except.ok (), Except.ok ()⟩
     [WaitAction.enter,
      WaitAction.event (some ⟨some "/tmp/a.wav", some OBS_OUTPUT_STOPPED⟩),
      WaitAction.enter] rfl⟩

/-- C3: when the recording started but no `OBS_WEBSOCKET_OUTPUT_STOPPED`
event arrives before the deadline, the call returns `None`, the event
handler is deregistered before returning, and any `StopRecord` in the
call log came from the manual task — the orchestrating flow never issues
one on the caller's behalf. -/
theorem c3_timeout_returns_none (ctrl : Controller) (remote : Remote)
    (sfc : Bool) (actions : List WaitAction) (hc : ctrl.connected = true)
    (hrs : remote.recordStatusActive = Except.ok false)
    (hst : remote.startRecord = Except.ok ())
    (hnoev : ∀ d, WaitAction.event d ∈ actions →
      (get_event_output_path d).2 ≠ some OBS_OUTPUT_STOPPED) :
    (start_and_wait_for_stop ctrl remote sfc actions).1 = RunOutcome.returned none
    ∧ (start_and_wait_for_stop ctrl remote sfc actions).2.handler_registered = false
    ∧ (∀ c ∈ (start_and_wait_for_stop ctrl remote sfc actions).2.calls,
        c.2 = RemoteCall.StopRecord → c.1 = Issuer.manualTask) := by
  rw [run_started ctrl remote sfc actions hc hrs hst]
  have hns := wait_loop_no_stop sfc actions activeState rfl hnoev
  refine ⟨?_, rfl, ?_⟩
  · simp only [hns]
    rfl
  · exact wait_loop_calls_stop_source sfc actions activeState (by decide)

theorem c3_witness :
    ((⟨true, none, false⟩ : Controller).connected = true)
    ∧ ((⟨Except.ok false, Except.ok (), Except.ok ()⟩ : Remote).recordStatusActive
        = Except.ok false)
    ∧ ((⟨Except.ok false, Except.ok (), Except.ok ()⟩ : Remote).startRecord
        = Except.ok ())
    ∧ (∀ d, WaitAction.event d ∈ [WaitAction.enter] →
        (get_event_output_path d).2 ≠ some OBS_OUTPUT_STOPPED)
    ∧ ((start_and_wait_for_stop ⟨true, none, false⟩
          ⟨Except.ok false, Except.ok (), Except.ok ()⟩ true
          [WaitAction.enter]).1 = RunOutcome.returned none
      ∧ (start_and_wait_for_stop ⟨true, none, false⟩
          ⟨Except.ok false, Except.ok (), Except.ok ()⟩ true
          [WaitAction.enter]).2.handler_registered = false
      ∧ (∀ c ∈ (start_and_wait_for_stop ⟨true, none, false⟩
            ⟨Except.ok false, Except.ok (), Except.ok ()⟩ true
            [WaitAction.enter]).2.calls,
          c.2 = RemoteCall.StopRecord → c.1 = Issuer.manualTask)) :=
  ⟨rfl, rfl, rfl, fun d hd => by simp at hd,
   c3_timeout_returns_none ⟨true, none, false⟩
     ⟨Except.ok false, Except.ok (), Except.ok ()⟩ true [WaitAction.enter]
     rfl rfl rfl (fun d hd => by simp at hd)⟩

/-- C4 counterexample: on a controller carrying a stale recorded path
from a previous session, a start attempt that fails with
`AlreadyRecording` does mutate state — the stale path has been cleared to
`None` by the entry reset — contradicting the claim that the path is
left unchanged. -/
theorem c4_counterexample_stale_path_cleared :
    ((⟨true, some "/tmp/a.wav", false⟩ : Controller).recorded_file_path
        = some "/tmp/a.wav")
    ∧ (start_and_wait_for_stop ⟨true, some "/tmp/a.wav", false⟩
        ⟨Except.ok true, Except.ok (), Except.ok ()⟩ true []).1
      = RunOutcome.raised (status_error_msg MSG_ALREADY_RECORDING)
    ∧ (start_and_wait_for_stop ⟨true, some "/tmp/a.wav", false⟩
        ⟨Except.ok true, Except.ok (), Except.ok ()⟩ true []).2.recorded_file_path
      = none := by
  decide

/-- C4 amended: when the remote status check reports an active recording,
`start_and_wait_for_stop` fails with the `AlreadyRecording` error (raised
through the status-check wrapper), registers no event handler, issues no
`StartRecord` or `StopRecord`, performs no path write, and leaves the
completion flag false and the path `None` (their entry-reset values — a
stale path from a previous session is cleared, not preserved); when the
check reports not-recording, the session proceeds by issuing the
`StartRecord` call. -/
theorem c4_already_recording_no_session_state (ctrl : Controller)
    (remote : Remote) (sfc : Bool) (actions : List WaitAction)
    (hc : ctrl.connected = true) :
    (remote.recordStatusActive = Except.ok true →
      (start_and_wait_for_stop ctrl remote sfc actions).1
          = RunOutcome.raised (status_error_msg MSG_ALREADY_RECORDING)
      ∧ (start_and_wait_for_stop ctrl remote sfc actions).2.handler_registered = false
      ∧ (∀ c ∈ (start_and_wait_for_stop ctrl remote sfc actions).2.calls,
          c.2 ≠ RemoteCall.StartRecord ∧ c.2 ≠ RemoteCall.StopRecord)
      ∧ (start_and_wait_for_stop ctrl remote sfc actions).2.recorded_file_path = none
      ∧ (start_and_wait_for_stop ctrl remote sfc actions).2.recording_stopped = false
      ∧ (start_and_wait_for_stop ctrl remote sfc actions).2.path_writes = 0)
    ∧ (remote.recordStatusActive = Except.ok false →
      (Issuer.orchestrator, RemoteCall.StartRecord)
        ∈ (start_and_wait_for_stop ctrl remote sfc actions).2.calls) := by
  constructor
  · intro hrs
    rw [run_already_recording ctrl remote sfc actions hc hrs]
    exact ⟨rfl, rfl, by decide, rfl, rfl, rfl⟩
  · intro hrs
    cases hst : remote.startRecord with
    | error e =>
      rw [run_start_error ctrl remote sfc actions e hc hrs hst]
      simp
    | ok u =>
      cases u
      rw [run_started ctrl remote sfc actions hc hrs hst]
      exact wait_loop_calls_mono sfc actions activeState _ (by decide)

theorem c4_witness :
    ((⟨true, none, false⟩ : Controller).connected = true)
    ∧ (((⟨Except.ok true, Except.ok (), Except.ok ()⟩ : Remote).recordStatusActive
          = Except.ok true →
        (start_and_wait_for_stop ⟨true, none, false⟩
            ⟨Except.ok true, Except.ok (), Except.ok ()⟩ true []).1
            = RunOutcome.raised (status_error_msg MSG_ALREADY_RECORDING)
        ∧ (start_and_wait_for_stop ⟨true, none, false⟩
            ⟨Except.ok true, Except.ok (), Except.ok ()⟩ true
            []).2.handler_registered = false
        ∧ (∀ c ∈ (start_and_wait_for_stop ⟨true, none, false⟩
              ⟨Except.ok true, Except.ok (), Except.ok ()⟩ true []).2.calls,
            c.2 ≠ RemoteCall.StartRecord ∧ c.2 ≠ RemoteCall.StopRecord)
        ∧ (start_and_wait_for_stop ⟨true, none, false⟩
            ⟨Except.ok true, Except.ok (), Except.ok ()⟩ true
            []).2.recorded_file_path = none
        ∧ (start_and_wait_for_stop ⟨true, none, false⟩
            ⟨Except.ok true, Except.ok (), Except.ok ()⟩ true
            []).2.recording_stopped = false
        ∧ (start_and_wait_for_stop ⟨true, none, false⟩
            ⟨Except.ok true, Except.ok (), Except.ok ()⟩ true []).2.path_writes = 0)
      ∧ ((⟨Except.ok true, Except.ok (), Except.ok ()⟩ : Remote).recordStatusActive
          = Except.ok false →
        (Issuer.orchestrator, RemoteCall.StartRecord)
          ∈ (start_and_wait_for_stop ⟨true, none, false⟩
              ⟨Except.ok true, Except.ok (), Except.ok ()⟩ true []).2.calls)) :=
  ⟨rfl,
   c4_already_recording_no_session_state ⟨true, none, false⟩
     ⟨Except.ok true, Except.ok (), Except.ok ()⟩ true [] rfl⟩

/-- C5 counterexample: an HTTP 304 response is not 2xx, yet
`send_file_to_api` reports success for it — `requests.Response.ok` only
fails for 400..599 — so "every non-2xx response fails with RemoteError"
is false on the code. -/
theorem c5_counterexample_304_success :
    (¬ (200 ≤ (304 : Nat) ∧ (304 : Nat) < 300))
    ∧ (send_file_to_api (fun _ => true) (some "http://x") none
        (fun _ => Except.ok ⟨304, "nm"⟩) "a.wav" none none "file").1
      = SendOutcome.ok ⟨304, "nm"⟩ := by
  constructor
  · decide
  · decide

/-- C5 amended: for every upload whose HTTP response has a status in
400..599 (exactly the statuses the `requests` library's `ok` check treats
as failure; other non-2xx statuses such as 3xx are reported as success),
`send_file_to_api` fails with the RemoteError message carrying the status
code and the body truncated to its first 500 characters — in particular
HTTP 500 with body "oops" yields the RemoteError(500, "oops") message
(see the witness). -/
theorem c5_remote_error_for_4xx_5xx (is_file : String → Bool)
    (env_api_url env_token : Option String) (file_path : String)
    (api_url token : Option String) (field_name : String)
    (resp : HttpResponse)
    (hfile : is_file file_path = true)
    (hurl : pyTruthy (pyOrStr api_url env_api_url) = true)
    (hstatus : 400 ≤ resp.status_code ∧ resp.status_code < 600) :
    (send_file_to_api is_file env_api_url env_token
        (fun _ => Except.ok resp) file_path api_url token field_name).1
      = SendOutcome.err
          ("API respondió " ++ toString resp.status_code ++ ": "
            ++ pySlice resp.text 500) := by
  have hok : respOk resp = false := by
    rw [respOk]
    exact decide_eq_false (fun h => h hstatus)
  simp [send_file_to_api, hfile, hurl, hok]

theorem c5_witness :
    ((fun _ : String => true) "f.wav" = true)
    ∧ (pyTruthy (pyOrStr none (some "http://x")) = true)
    ∧ (400 ≤ (500 : Nat) ∧ (500 : Nat) < 600)
    ∧ (send_file_to_api (fun _ => true) (some "http://x") none
        (fun _ => Except.ok ⟨500, "oops"⟩) "f.wav" none none "file").1
      = SendOutcome.err
          ("API respondió " ++ toString (500 : Nat) ++ ": " ++ pySlice "oops" 500)
    ∧ ("API respondió " ++ toString (500 : Nat) ++ ": " ++ pySlice "oops" 500)
        = "API respondió 500: oops" :=
  ⟨rfl, rfl, by decide,
   c5_remote_error_for_4xx_5xx (fun _ => true) (some "http://x") none
     "f.wav" none none "file" ⟨500, "oops"⟩ rfl rfl (by decide),
   by decide⟩

/-- C6: when the path does not reference an existing regular file,
`send_file_to_api` fails with the FileNotFound message and the list of
HTTP requests issued is empty — no network request is constructed or
sent. -/
theorem c6_file_not_found_no_network (is_file : String → Bool)
    (env_api_url env_token : Option String)
    (http : HttpRequest → Except String HttpResponse)
    (file_path : String) (api_url token : Option String)
    (field_name : String) (h : is_file file_path = false) :
    send_file_to_api is_file env_api_url env_token http file_path
        api_url token field_name
      = (SendOutcome.err ("El archivo no existe: " ++ file_path), []) := by
  rw [send_file_to_api, if_pos h]

theorem c6_witness :
    ((fun _ : String => false) "missing.wav" = false)
    ∧ send_file_to_api (fun _ => false) (some "http://x") none
        (fun _ => Except.ok ⟨200, "ignored"⟩) "missing.wav" none none "file"
      = (SendOutcome.err ("El archivo no existe: " ++ "missing.wav"), []) :=
  ⟨rfl,
   c6_file_not_found_no_network (fun _ => false) (some "http://x") none
     (fun _ => Except.ok ⟨200, "ignored"⟩) "missing.wav" none none "file" rfl⟩

/-! ### Helper lemmas for the store -/

theorem find?_id_append (l : List TranscriptionRow) (row : TranscriptionRow)
    (tid : Nat) (hrow : row.id = tid) (h : ∀ t ∈ l, t.id ≠ tid) :
    List.find? (fun t => t.id == tid) (l ++ [row]) = some row := by
  rw [List.find?_append]
  have h1 : List.find? (fun t => t.id == tid) l = none :=
    List.find?_eq_none.mpr (fun x hx => by simp [h x hx])
  rw [h1]
  simp [hrow]

theorem filter_tid_append (l newRows : List SegmentRow) (tid : Nat)
    (hold : ∀ s ∈ l, s.transcription_id ≠ tid)
    (hnew : ∀ s ∈ newRows, s.transcription_id = tid) :
    List.filter (fun s => s.transcription_id == tid) (l ++ newRows) = newRows := by
  rw [List.filter_append]
  rw [List.filter_eq_nil_iff.mpr (fun a ha => by simp [hold a ha])]
  rw [List.filter_eq_self.mpr (fun a ha => by simp [hnew a ha])]
  simp

/-- C7: after `store_transcription`, `get_transcription` of the returned
id yields the stored record together with exactly the submitted number of
segments, ordered by `segment_id` (the stored segment index) ascending. -/
theorem c7_store_get_segments_sorted (db : Database) (resp : ResponseData)
    (src : Option String) (now : Nat) (hwf : db.WF) :
    ∃ t segs,
      get_transcription (store_transcription db resp src now).2
          (store_transcription db resp src now).1 = some (t, segs)
      ∧ t.id = (store_transcription db resp src now).1
      ∧ segs.length = resp.segments.length
      ∧ List.Sorted segLe segs := by
  have hwf' :
      (∀ t ∈ db.transcriptions, t.id < db.next_transcription_id)
      ∧ (∀ s ∈ db.segments, s.transcription_id < db.next_transcription_id) := hwf
  simp only [store_transcription, get_transcription]
  set row : TranscriptionRow :=
    { id := db.next_transcription_id
      transcription := resp.transcription.getD ""
      language := resp.language
      processing_time := resp.processing_time
      model_used := resp.model_used
      source_file := src
      created_at := now } with hrow
  set segRows :=
    List.map (mkSegmentRow db.next_transcription_id db.next_segment_rowid)
      resp.segments.enum with hsegRows
  have hfind : List.find? (fun t => t.id == db.next_transcription_id)
      (db.transcriptions ++ [row]) = some row :=
    find?_id_append db.transcriptions row db.next_transcription_id
      (by rw [hrow]) (fun t ht => Nat.ne_of_lt (hwf'.1 t ht))
  rw [hfind]
  have hfilt : List.filter (fun s => s.transcription_id == db.next_transcription_id)
      (db.segments ++ segRows) = segRows :=
    filter_tid_append db.segments segRows db.next_transcription_id
      (fun s hs => Nat.ne_of_lt (hwf'.2 s hs))
      (fun s hs => by
        rw [hsegRows] at hs
        obtain ⟨p, _, rfl⟩ := List.mem_map.mp hs
        rfl)
  rw [hfilt]
  refine ⟨row, List.insertionSort segLe segRows, rfl, by rw [hrow], ?_,
    List.sorted_insertionSort segLe segRows⟩
  rw [(List.perm_insertionSort segLe segRows).length_eq, hsegRows]
  simp

theorem c7_witness :
    (Database.empty.WF)
    ∧ (∃ t segs,
        get_transcription
            (store_transcription Database.empty
              ⟨some "hola", some "es", none, some "small",
               [⟨some 2, some 1, some 2, some "b"⟩,
                ⟨some 1, some 0, some 1, some "a"⟩]⟩ none 5).2
            (store_transcription Database.empty
              ⟨some "hola", some "es", none, some "small",
               [⟨some 2, some 1, some 2, some "b"⟩,
                ⟨some 1, some 0, some 1, some "a"⟩]⟩ none 5).1 = some (t, segs)
        ∧ t.id = (store_transcription Database.empty
              ⟨some "hola", some "es", none, some "small",
               [⟨some 2, some 1, some 2, some "b"⟩,
                ⟨some 1, some 0, some 1, some "a"⟩]⟩ none 5).1
        ∧ segs.length =
            (⟨some "hola", some "es", none, some "small",
              [⟨some 2, some 1, some 2, some "b"⟩,
               ⟨some 1, some 0, some 1, some "a"⟩]⟩ : ResponseData).segments.length
        ∧ List.Sorted segLe segs) :=
  ⟨⟨fun t ht => absurd ht (List.not_mem_nil t),
    fun s hs => absurd hs (List.not_mem_nil s)⟩,
   c7_store_get_segments_sorted Database.empty
     ⟨some "hola", some "es", none, some "small",
      [⟨some 2, some 1, some 2, some "b"⟩,
       ⟨some 1, some 0, some 1, some "a"⟩]⟩ none 5
     ⟨fun t ht => absurd ht (List.not_mem_nil t),
      fun s hs => absurd hs (List.not_mem_nil s)⟩⟩

/-- C8 counterexample: `created_at` is `CURRENT_TIMESTAMP` with
one-second resolution, so a store in the same second as an existing
record ties with it on the `ORDER BY created_at DESC` key, and the
listing then does not surface the newly stored record first: here the
new record gets id 2 but the listing's head is the old record with id 1.
This refutes the unconditional "after a store the listed sequence
surfaces the newly stored record first". -/
theorem c8_counterexample_same_second_tie :
    (store_transcription
        (⟨[⟨1, "x", none, none, none, none, 7⟩], [], 2, 1⟩ : Database)
        ⟨some "y", none, none, none, []⟩ none 7).1 = 2
    ∧ (list_transcriptions
        (store_transcription
          (⟨[⟨1, "x", none, none, none, none, 7⟩], [], 2, 1⟩ : Database)
          ⟨some "y", none, none, none, []⟩ none 7).2 10).head?.map (fun t => t.id)
      = some 1 := by
  constructor
  · rfl
  · decide

/-- C8 amended: listing with a limit returns at most that many records,
ordered by descending creation time; and when the stored record's
creation timestamp is strictly newer than every existing record's (the
generic case — timestamps have one-second resolution, so two stores
within the same second tie and the order among tied records is not
guaranteed), a subsequent listing with a positive limit surfaces the
newly stored record first. -/
theorem c8_list_limit_sorted_newest_first (db : Database)
    (resp : ResponseData) (src : Option String) (now limit : Nat)
    (hfresh : ∀ t ∈ db.transcriptions, t.created_at < now)
    (hlim : 1 ≤ limit) :
    (list_transcriptions db limit).length ≤ limit
    ∧ List.Sorted createdDesc (list_transcriptions db limit)
    ∧ (list_transcriptions (store_transcription db resp src now).2 limit).head?.map
        (fun t => t.id) = some (store_transcription db resp src now).1 := by
  refine ⟨List.length_take_le _ _,
    List.Pairwise.sublist (List.take_sublist _ _)
      (List.sorted_insertionSort createdDesc _), ?_⟩
  simp only [store_transcription, list_transcriptions]
  set row : TranscriptionRow :=
    { id := db.next_transcription_id
      transcription := resp.transcription.getD ""
      language := resp.language
      processing_time := resp.processing_time
      model_used := resp.model_used
      source_file := src
      created_at := now } with hrow
  have hmem : row ∈ List.insertionSort createdDesc (db.transcriptions ++ [row]) :=
    (List.mem_insertionSort createdDesc).mpr (by simp)
  have hsort := List.sorted_insertionSort createdDesc (db.transcriptions ++ [row])
  cases hL : List.insertionSort createdDesc (db.transcriptions ++ [row]) with
  | nil => rw [hL] at hmem; exact absurd hmem (List.not_mem_nil row)
  | cons h t =>
    have hhead : h = row := by
      rw [hL] at hmem hsort
      rcases List.mem_cons.mp hmem with he | ht
      · exact he.symm
      · have hrel : createdDesc h row := List.rel_of_sorted_cons hsort row ht
        have hh : h ∈ db.transcriptions ++ [row] := by
          have : h ∈ List.insertionSort createdDesc (db.transcriptions ++ [row]) := by
            rw [hL]; exact List.mem_cons_self h t
          exact (List.mem_insertionSort createdDesc).mp this
        rcases List.mem_append.mp hh with hdb | hr
        · exact absurd hrel (by
            have := hfresh h hdb
            simp only [createdDesc, hrow]
            omega)
        · simpa using hr
    cases limit with
    | zero => exact absurd hlim (by omega)
    | succ n =>
      rw [List.take_succ_cons]
      simp [hhead, hrow]

theorem c8_witness :
    (∀ t ∈ (⟨[⟨1, "x", none, none, none, none, 3⟩], [], 2, 1⟩ :
        Database).transcriptions, t.created_at < 7)
    ∧ (1 ≤ 10)
    ∧ ((list_transcriptions (⟨[⟨1, "x", none, none, none, none, 3⟩], [], 2, 1⟩ :
          Database) 10).length ≤ 10
      ∧ List.Sorted createdDesc
          (list_transcriptions (⟨[⟨1, "x", none, none, none, none, 3⟩], [], 2, 1⟩ :
            Database) 10)
      ∧ (list_transcriptions
            (store_transcription
              (⟨[⟨1, "x", none, none, none, none, 3⟩], [], 2, 1⟩ : Database)
              ⟨some "hola", none, none, none, []⟩ none 7).2 10).head?.map
          (fun t => t.id)
        = some (store_transcription
            (⟨[⟨1, "x", none, none, none, none, 3⟩], [], 2, 1⟩ : Database)
            ⟨some "hola", none, none, none, []⟩ none 7).1) :=
  ⟨by decide, by decide,
   c8_list_limit_sorted_newest_first
     ⟨[⟨1, "x", none, none, none, none, 3⟩], [], 2, 1⟩
     ⟨some "hola", none, none, none, []⟩ none 7 10 (by decide) (by decide)⟩

end RecordAndSend
